import Mathlib

/-!
Shallow embedding of the educationalDB dashboard (src/app.py, src/heatmap.py).

The repository is two Streamlit scripts over a pandas DataFrame.  We model a
DataFrame as a `Table`: a schema (list of column names) plus an ordered list
of rows.  Each row carries the two columns the scripts address by name and
type (`country : String`, `year` kept as its integer year, since every use in
the scripts goes through `.dt.year`), and an association list for the numeric
indicator cells.  Numeric cells are rationals: every arithmetic operation the
scripts perform (mean, difference, percent) is exact on the dataset values,
and no claim depends on float rounding.
-/

structure Row where
  country : String
  year : Int
  cells : List (String × Rat)
deriving Repr, DecidableEq, Inhabited

/-- First cell of the association list carrying the named column, if any. -/
def lookupCell (c : String) : List (String × Rat) → Option Rat
  | [] => none
  | (k, v) :: rest => if c == k then some v else lookupCell c rest

/-- Value of a numeric column in a row (`df[col]` for one row).  Rows of a
well-formed table carry a cell for every schema column, so the default is
never exercised by the scripts. -/
def Row.val (r : Row) (c : String) : Rat :=
  (lookupCell c r.cells).getD 0

structure Table where
  cols : List String
  rows : List Row
deriving Repr, DecidableEq, Inhabited

/-- `pd.Series.mean()`: arithmetic mean of the values; pandas yields NaN on an
empty series, modelled as `none`. -/
def seriesMean : List Rat → Option Rat
  | [] => none
  | x :: xs => some ((x :: xs).sum / (x :: xs).length)

/-- src/app.py lines 17-24 (`calculate_delta`): difference between the last
and second-to-last value of `df[column]`, and that difference as a percent of
the second-to-last value, 0 when that value is 0 or when there are fewer than
2 rows. -/
def calculate_delta (df : List Row) (column : String) : Rat × Rat :=
  if df.length < 2 then (0, 0)
  else
    let current_value := (df.getD (df.length - 1) default).val column
    let previous_value := (df.getD (df.length - 2) default).val column
    let delta := current_value - previous_value
    let delta_percent := if previous_value ≠ 0 then (delta / previous_value) * 100 else 0
    (delta, delta_percent)

/-- src/app.py lines 49-50: boolean-mask selection
`data[data.country.isin(countries) & data.year.dt.year.between(lo, hi)]`.
`isin` is exact (case-sensitive) membership; `between` is inclusive at both
ends.  Mask selection keeps the schema and preserves row order. -/
def filtered_data (data : Table) (countries : List String) (yearLow yearHigh : Int) : Table :=
  { cols := data.cols,
    rows := data.rows.filter fun r =>
      countries.contains r.country && (decide (yearLow ≤ r.year) && decide (r.year ≤ yearHigh)) }

/-- src/app.py line 110 and src/heatmap.py line 29: the second filtering pass,
`data[data.year.dt.year.between(lo, hi)]` — year bounds only, no country
condition. -/
def yearFiltered (data : Table) (yearLow yearHigh : Int) : Table :=
  { cols := data.cols,
    rows := data.rows.filter fun r =>
      decide (yearLow ≤ r.year) && decide (r.year ≤ yearHigh) }

/-- Ordered insertion for `sortBy`. -/
def insertBy (le : α → α → Bool) (x : α) : List α → List α
  | [] => [x]
  | y :: ys => if le x y then x :: y :: ys else y :: insertBy le x ys

/-- Insertion sort.  Used to model the two places the scripts rely on a sort:
pandas `groupby` emitting group keys in ascending order (keys there are
distinct, so any comparison sort gives the same list), and
`sort_values(ascending=False)`. -/
def sortBy (le : α → α → Bool) : List α → List α
  | [] => []
  | x :: xs => insertBy le x (sortBy le xs)

/-- Code-point lexicographic comparison on character lists (Python string
`<=`, the order pandas `groupby` sorts object keys by). -/
def charListLe : List Char → List Char → Bool
  | [], _ => true
  | _ :: _, [] => false
  | a :: as, b :: bs =>
    if a.val.toNat < b.val.toNat then true
    else if b.val.toNat < a.val.toNat then false
    else charListLe as bs

/-- String comparison used to model pandas `groupby` emitting its group keys
in ascending key order. -/
def strLe (a b : String) : Bool := charListLe a.data b.data

/-- src/app.py line 118 and src/heatmap.py line 37:
`df.groupby('country')[metric].mean().reset_index()` — one output row per
distinct country of the input, keys in ascending order, value the mean of
`metric` over that country's rows.  Every group is nonempty, so the `getD 0`
fallback of the empty mean is never exercised. -/
def groupbyMeanCountry (rows : List Row) (column : String) : List (String × Rat) :=
  let keys := sortBy strLe (rows.map Row.country).dedup
  keys.map fun k =>
    (k, (seriesMean ((rows.filter fun r => r.country == k).map fun r => r.val column)).getD 0)

/-- Lexicographic comparison on (country, latitude, longitude) keys, again
only fixing the ascending key order pandas `groupby` produces. -/
def tripleLe (a b : String × Rat × Rat) : Bool :=
  (strLe a.1 b.1 && !(a.1 == b.1)) ||
    (a.1 == b.1 && (decide (a.2.1 < b.2.1) ||
      (a.2.1 == b.2.1 && decide (a.2.2 ≤ b.2.2))))

/-- src/heatmap.py line 51:
`df.groupby(['country','latitude','longitude'])[metric].mean().reset_index()`. -/
def groupbyMeanTriple (rows : List Row) (column : String) :
    List ((String × Rat × Rat) × Rat) :=
  let key : Row → String × Rat × Rat := fun r => (r.country, r.val "latitude", r.val "longitude")
  let keys := sortBy tripleLe (rows.map key).dedup
  keys.map fun k =>
    (k, (seriesMean ((rows.filter fun r => key r == k).map fun r => r.val column)).getD 0)

/-- src/app.py lines 132-137: the fixed indicator list of the composite
metric. -/
def indicators : List String :=
  ["pri_comp_rate_pct", "school_enrol_primary_pct",
   "school_enrol_secondary_pct", "school_enrol_tertiary_pct"]

/-- src/app.py line 141:
`filtered_data['composite_metric'] = filtered_data[indicators].mean(axis=1)` —
adds (or overwrites) the `composite_metric` column with the per-row mean of
the four indicators.  The assignment targets the copy produced by the
boolean-mask selection, never the loaded table. -/
def addCompositeMetric (t : Table) : Table :=
  { cols := if t.cols.contains "composite_metric" then t.cols
            else t.cols ++ ["composite_metric"],
    rows := t.rows.map fun r =>
      { r with cells := ("composite_metric", (indicators.map r.val).sum / 4) :: r.cells } }

/-- Comparison for `sort_values(by='composite_metric', ascending=False)`.
The source leaves `kind` at its default `quicksort`, whose relative order of
equal keys is unspecified; this embedding fixes one concrete order (the
stable insertion sort below).  No theorem in this file about the sorted
output depends on how ties are ordered. -/
def scoreDescLe (a b : String × Rat) : Bool := decide (b.2 ≤ a.2)

/-- src/app.py lines 144-149: group the filtered rows by country, average
`composite_metric` within each group, and sort descending by score. -/
def country_composite_scores (fd : Table) : List (String × Rat) :=
  sortBy scoreDescLe (groupbyMeanCountry fd.rows "composite_metric")

/-!
The tail of src/app.py (lines 98-172) is an imperative script: we model it as
a sequence of statements over a script state.  `filtered_data` is a mutable
variable (assigned at line 49, reassigned at line 110, column-extended at
line 141); `country_composite_scores` is assigned only inside the `if` branch
at line 144, so the unconditional read at line 158 raises a `NameError` when
the guard failed — modelled by an `Option` that is `none` until assigned, and
a `crashed` flag that stops the script.
-/

structure AppState where
  data : Table
  countriesSel : List String
  years1 : Int × Int
  metricsSel : List String
  years2 : Int × Int
  metricSel : String
  filtered_data : Table
  metric_cards : List (String × Option Rat × (Rat × Rat))
  heatmap_data : Option (List (String × Rat))
  country_scores : Option (List (String × Rat))
  top_10_countries : Option (List (String × Rat))
  indicator_error : Bool
  crashed : Bool
deriving Repr, DecidableEq

inductive Stmt
  /-- line 49: `filtered_data = data[isin & between]` -/
  | sFilterCountryYear
  /-- lines 57-60: one metric card per selected metric (mean + delta) -/
  | sMetricCards
  /-- line 110: `filtered_data = data[between]` (year only) -/
  | sFilterYearOnly
  /-- line 118: `heatmap_data = filtered_data.groupby('country')[metric].mean()` -/
  | sHeatmap
  /-- lines 140-151: guard on the indicator columns; on success add the
  composite column and build `country_composite_scores`, otherwise show the
  `st.error` message (and leave the variable unassigned) -/
  | sComposite
  /-- line 158: `top_10_countries = country_composite_scores.head(10)` -/
  | sTop10
deriving Repr, DecidableEq

def exec (s : AppState) : Stmt → AppState
  | .sFilterCountryYear =>
    if s.crashed then s else
    { s with filtered_data := filtered_data s.data s.countriesSel s.years1.1 s.years1.2 }
  | .sMetricCards =>
    if s.crashed then s else
    { s with metric_cards := s.metricsSel.map fun m =>
        (m, seriesMean (s.filtered_data.rows.map fun r => r.val m),
          calculate_delta s.filtered_data.rows m) }
  | .sFilterYearOnly =>
    if s.crashed then s else
    { s with filtered_data := yearFiltered s.data s.years2.1 s.years2.2 }
  | .sHeatmap =>
    if s.crashed then s else
    { s with heatmap_data := some (groupbyMeanCountry s.filtered_data.rows s.metricSel) }
  | .sComposite =>
    if s.crashed then s else
    if indicators.all (fun i => s.filtered_data.cols.contains i) then
      let fd := addCompositeMetric s.filtered_data
      { s with filtered_data := fd, country_scores := some (country_composite_scores fd) }
    else
      { s with indicator_error := true }
  | .sTop10 =>
    if s.crashed then s else
    match s.country_scores with
    | some scores => { s with top_10_countries := some (scores.take 10) }
    | none => { s with crashed := true }

def appProgram : List Stmt :=
  [.sFilterCountryYear, .sMetricCards, .sFilterYearOnly, .sHeatmap, .sComposite, .sTop10]

/-- Script state before the first statement runs.  `filtered_data` is
assigned by the first statement before any read; the other output variables
start unassigned (`none` / `[]`). -/
def initState (data : Table) (countries : List String) (years1 : Int × Int)
    (metrics : List String) (years2 : Int × Int) (metric : String) : AppState :=
  { data := data, countriesSel := countries, years1 := years1, metricsSel := metrics,
    years2 := years2, metricSel := metric, filtered_data := data, metric_cards := [],
    heatmap_data := none, country_scores := none, top_10_countries := none,
    indicator_error := false, crashed := false }

/-- One full run of the src/app.py script on the loaded table and the values
of the sidebar widgets. -/
def appRun (data : Table) (countries : List String) (years1 : Int × Int)
    (metrics : List String) (years2 : Int × Int) (metric : String) : AppState :=
  appProgram.foldl exec (initState data countries years1 metrics years2 metric)

/-- src/heatmap.py: one full run of the second page — the year-only filter
(line 29) feeding the country heatmap (line 37) and the
country/latitude/longitude bubble map (line 51).  The page has no country
widget: a country selection is not even an input. -/
def heatmapPage (data : Table) (years : Int × Int) (metric : String) :
    (List (String × Rat)) × (List ((String × Rat × Rat) × Rat)) :=
  let fd := yearFiltered data years.1 years.2
  (groupbyMeanCountry fd.rows metric, groupbyMeanTriple fd.rows metric)

/-! ## Helper lemmas -/

theorem mem_insertBy {le : α → α → Bool} {x a : α} {l : List α} :
    a ∈ insertBy le x l ↔ a = x ∨ a ∈ l := by
  induction l with
  | nil => simp [insertBy]
  | cons y ys ih =>
    unfold insertBy
    split
    · simp
    · simp only [List.mem_cons, ih]
      tauto

theorem mem_sortBy {le : α → α → Bool} {a : α} {l : List α} :
    a ∈ sortBy le l ↔ a ∈ l := by
  induction l with
  | nil => simp [sortBy]
  | cons x xs ih => simp [sortBy, mem_insertBy, ih]

/-! ## Claims -/

/-- C3: `Filter` returns exactly the rows whose country is a member of the
country selection (case-sensitive exact string match) and whose year lies
between the bounds, both ends inclusive. -/
theorem C3_filter_exact_rows (data : Table) (countries : List String)
    (yearLow yearHigh : Int) (r : Row) :
    r ∈ (filtered_data data countries yearLow yearHigh).rows ↔
      r ∈ data.rows ∧ r.country ∈ countries ∧ yearLow ≤ r.year ∧ r.year ≤ yearHigh := by
  simp [filtered_data, List.mem_filter, and_assoc]

/-- C7: `Filter` never fails: with an empty country selection it returns an
empty view, and likewise whenever `yearLow > yearHigh` (the function is total
by construction, so no input raises). -/
theorem C7_filter_empty_view :
    (∀ (data : Table) (yearLow yearHigh : Int),
        (filtered_data data [] yearLow yearHigh).rows = []) ∧
    (∀ (data : Table) (countries : List String) (yearLow yearHigh : Int),
        yearHigh < yearLow →
        (filtered_data data countries yearLow yearHigh).rows = []) := by
  constructor
  · intro data yearLow yearHigh
    simp [filtered_data]
  · intro data countries yearLow yearHigh h
    simp only [filtered_data, List.filter_eq_nil_iff]
    intro r _
    simp only [Bool.and_eq_true, decide_eq_true_eq, not_and]
    intro _ h1 h2
    omega

theorem C7_filter_empty_view_witness :
    (filtered_data ⟨["a"], [⟨"US", 2010, [("a", 1)]⟩]⟩ [] 2000 2020).rows = [] ∧
    (filtered_data ⟨["a"], [⟨"US", 2010, [("a", 1)]⟩]⟩ ["US"] 2020 2000).rows = [] :=
  ⟨C7_filter_empty_view.1 ⟨["a"], [⟨"US", 2010, [("a", 1)]⟩]⟩ 2000 2020,
   C7_filter_empty_view.2 ⟨["a"], [⟨"US", 2010, [("a", 1)]⟩]⟩ ["US"] 2020 2000 (by decide)⟩

/-- C8: `Filter` is idempotent — filtering an already-filtered view again
with the same country selection and year bounds returns the same view. -/
theorem C8_filter_idempotent (data : Table) (countries : List String)
    (yearLow yearHigh : Int) :
    filtered_data (filtered_data data countries yearLow yearHigh) countries yearLow yearHigh =
      filtered_data data countries yearLow yearHigh := by
  simp [filtered_data, List.filter_filter, Bool.and_self]

/-- C4: `calculate_delta` returns `(0, 0)` on views with fewer than 2 rows;
and on views with at least 2 rows whose second-to-last value in the column is
exactly 0, the percent component is 0 regardless of the last value while the
delta component still equals last value minus second-to-last value. -/
theorem C4_delta_edge_cases :
    (∀ (df : List Row) (column : String), df.length < 2 →
        calculate_delta df column = (0, 0)) ∧
    (∀ (df : List Row) (column : String), 2 ≤ df.length →
        (df.getD (df.length - 2) default).val column = 0 →
        calculate_delta df column =
          ((df.getD (df.length - 1) default).val column -
            (df.getD (df.length - 2) default).val column, 0)) := by
  constructor
  · intro df column h
    simp [calculate_delta, h]
  · intro df column h hprev
    unfold calculate_delta
    rw [if_neg (by omega)]
    simp only [List.getD, List.get?_eq_getElem?] at hprev
    simp [hprev]

theorem C4_delta_edge_cases_witness :
    calculate_delta [⟨"Chile", 2015, [("m", 7)]⟩] "m" = (0, 0) ∧
    calculate_delta [⟨"Chile", 2015, [("m", 0)]⟩, ⟨"Chile", 2016, [("m", 5)]⟩] "m" =
      (([⟨"Chile", 2015, [("m", 0)]⟩, (⟨"Chile", 2016, [("m", 5)]⟩ : Row)].getD (2 - 1) default).val "m" -
        ([⟨"Chile", 2015, [("m", 0)]⟩, (⟨"Chile", 2016, [("m", 5)]⟩ : Row)].getD (2 - 2) default).val "m", 0) :=
  ⟨C4_delta_edge_cases.1 [⟨"Chile", 2015, [("m", 7)]⟩] "m" (by decide),
   C4_delta_edge_cases.2 [⟨"Chile", 2015, [("m", 0)]⟩, ⟨"Chile", 2016, [("m", 5)]⟩] "m"
     (by decide) (by simp [Row.val, lookupCell])⟩

/-- Fixture for the spec's worked example: the table holding exactly the two
Afghanistan rows, in year order. -/
def afghanRows : List Row :=
  [⟨"Afghanistan", 2010, [("gov_exp_pct_gdp", 16/5)]⟩,
   ⟨"Afghanistan", 2011, [("gov_exp_pct_gdp", 7/2)]⟩]

def afghanTable : Table :=
  ⟨["country", "year", "gov_exp_pct_gdp"], afghanRows⟩

/-- C5: on the two-row Afghanistan table, filtering on {"Afghanistan"} and
years 2010-2011 yields both rows in year order, and the metric summary on
`gov_exp_pct_gdp` gives mean 3.35 = 67/20, delta 0.3 = 3/10 and delta-percent
9.375 = 75/8. -/
theorem C5_afghanistan_scenario :
    (filtered_data afghanTable ["Afghanistan"] 2010 2011).rows = afghanRows ∧
    seriesMean (((filtered_data afghanTable ["Afghanistan"] 2010 2011).rows).map
        fun r => r.val "gov_exp_pct_gdp") = some (67/20) ∧
    calculate_delta (filtered_data afghanTable ["Afghanistan"] 2010 2011).rows
        "gov_exp_pct_gdp" = (3/10, 75/8) := by
  refine ⟨?_, ?_, ?_⟩ <;>
    norm_num [filtered_data, afghanTable, afghanRows, seriesMean, calculate_delta,
      Row.val, List.filter, lookupCell]

/-- C9: the key set of a grouped mean is exactly the set of distinct
group-key values present in the input view — for the country grouping of the
heatmaps and the (country, latitude, longitude) grouping of the bubble map. -/
theorem C9_groupby_keys (rows : List Row) (column : String) :
    (∀ k : String,
        k ∈ (groupbyMeanCountry rows column).map Prod.fst ↔ k ∈ rows.map Row.country) ∧
    (∀ k : String × Rat × Rat,
        k ∈ (groupbyMeanTriple rows column).map Prod.fst ↔
          k ∈ rows.map fun r => (r.country, r.val "latitude", r.val "longitude")) := by
  constructor <;> intro k <;>
    simp [groupbyMeanCountry, groupbyMeanTriple, List.mem_map, mem_sortBy, List.mem_dedup]

theorem exec_data (s : AppState) (st : Stmt) : (exec s st).data = s.data := by
  cases st <;> simp only [exec] <;>
    first
      | (split <;> rfl)
      | (split
         · rfl
         · split
           · rfl
           · rfl)

theorem foldl_exec_data (l : List Stmt) (s : AppState) :
    (l.foldl exec s).data = s.data := by
  induction l generalizing s with
  | nil => rfl
  | cons st l ih => rw [List.foldl_cons, ih, exec_data]

/-- C10: the loaded table is immutable — a full run of the dashboard script
(filtering, metric summaries, grouped means, the composite-score step that
adds the `composite_metric` column to the filtered copy, and the Top-N step)
leaves `data` with exactly the rows, columns and ordering it was loaded
with. -/
theorem C10_table_immutable (data : Table) (countries : List String)
    (years1 : Int × Int) (metrics : List String) (years2 : Int × Int) (metric : String) :
    (appRun data countries years1 metrics years2 metric).data = data :=
  foldl_exec_data appProgram (initState data countries years1 metrics years2 metric)

/-- C6: the heatmap data, the per-country composite scores and the Top-10
list (and whether the indicator error / crash occurs) do not depend on the
selected country set: two runs of the script over the same table with the
same year ranges and metric selections but different country selections
produce identical values for all of them, because the second filtering pass
(`data[data.year.dt.year.between(...)]`) restricts rows by year only.  (The
bubble map of src/heatmap.py, `heatmapPage`, does not even take a country
selection as input.) -/
theorem C6_outputs_ignore_countries (data : Table) (c c' : List String)
    (years1 : Int × Int) (metrics : List String) (years2 : Int × Int) (metric : String) :
    (appRun data c years1 metrics years2 metric).heatmap_data =
      (appRun data c' years1 metrics years2 metric).heatmap_data ∧
    (appRun data c years1 metrics years2 metric).country_scores =
      (appRun data c' years1 metrics years2 metric).country_scores ∧
    (appRun data c years1 metrics years2 metric).top_10_countries =
      (appRun data c' years1 metrics years2 metric).top_10_countries ∧
    (appRun data c years1 metrics years2 metric).indicator_error =
      (appRun data c' years1 metrics years2 metric).indicator_error ∧
    (appRun data c years1 metrics years2 metric).crashed =
      (appRun data c' years1 metrics years2 metric).crashed := by
  by_cases hall : ∀ x ∈ indicators, x ∈ data.cols
  · simp [appRun, appProgram, initState, exec, yearFiltered, if_pos hall]
  · simp [appRun, appProgram, initState, exec, yearFiltered, if_neg hall]

/-- Fixture: a table whose schema lacks `pri_comp_rate_pct`, one of the four
required composite indicators. -/
def tableNoPri : Table :=
  ⟨["country", "year", "school_enrol_primary_pct", "school_enrol_secondary_pct",
    "school_enrol_tertiary_pct"],
   [⟨"Norway", 2015, [("school_enrol_primary_pct", 100), ("school_enrol_secondary_pct", 95),
      ("school_enrol_tertiary_pct", 80)]⟩]⟩

/-- Fixture: a table carrying all four composite indicators. -/
def tableAllInd : Table :=
  ⟨["country", "year", "pri_comp_rate_pct", "school_enrol_primary_pct",
    "school_enrol_secondary_pct", "school_enrol_tertiary_pct"],
   [⟨"Norway", 2015, [("pri_comp_rate_pct", 100), ("school_enrol_primary_pct", 100),
      ("school_enrol_secondary_pct", 90), ("school_enrol_tertiary_pct", 70)]⟩]⟩

/-- C1: the column guard fires exactly when an indicator column is absent,
but the claim's "the rest of the dashboard (including the Top-10 step) still
completes" is false on the code: with `pri_comp_rate_pct` missing the
`st.error` message is shown AND the script then crashes at line 158
(`country_composite_scores` was never assigned, so reading it raises
`NameError`), leaving no Top-10 output.  With all four columns present the
run shows no error and produces the per-country composite scores. -/
theorem C1_missing_indicator_breaks_top10 :
    ((appRun tableNoPri ["Norway"] (2010, 2020) ["school_enrol_primary_pct"] (2010, 2020)
        "school_enrol_primary_pct").indicator_error = true ∧
     (appRun tableNoPri ["Norway"] (2010, 2020) ["school_enrol_primary_pct"] (2010, 2020)
        "school_enrol_primary_pct").country_scores = none ∧
     (appRun tableNoPri ["Norway"] (2010, 2020) ["school_enrol_primary_pct"] (2010, 2020)
        "school_enrol_primary_pct").crashed = true ∧
     (appRun tableNoPri ["Norway"] (2010, 2020) ["school_enrol_primary_pct"] (2010, 2020)
        "school_enrol_primary_pct").top_10_countries = none) ∧
    ((appRun tableAllInd ["Norway"] (2010, 2020) ["school_enrol_primary_pct"] (2010, 2020)
        "school_enrol_primary_pct").indicator_error = false ∧
     (appRun tableAllInd ["Norway"] (2010, 2020) ["school_enrol_primary_pct"] (2010, 2020)
        "school_enrol_primary_pct").crashed = false ∧
     (appRun tableAllInd ["Norway"] (2010, 2020) ["school_enrol_primary_pct"] (2010, 2020)
        "school_enrol_primary_pct").country_scores = some [("Norway", 90)] ∧
     (appRun tableAllInd ["Norway"] (2010, 2020) ["school_enrol_primary_pct"] (2010, 2020)
        "school_enrol_primary_pct").top_10_countries = some [("Norway", 90)]) := by
  constructor
  · simp [appRun, appProgram, initState, exec, tableNoPri, yearFiltered, indicators]
  · simp [appRun, appProgram, initState, exec, tableAllInd, yearFiltered,
      addCompositeMetric, country_composite_scores, groupbyMeanCountry, seriesMean,
      sortBy, insertBy, indicators, Row.val, List.dedup, List.pwFilter, lookupCell,
      List.filter]
    norm_num
